import Mathlib

set_option maxRecDepth 100000
set_option maxHeartbeats 1000000

/-!
# HomePOD ESP32 sensor firmware: shallow embedding and verification

Embedding of the sensor drivers and the scheduler loop of the HomePOD
firmware (`src/sensors/dht_sensor.cpp`, `src/sensors/light_sensor.cpp`,
`src/sensors/microphone.cpp`, `src/main.cpp`).

Modelling conventions:
* A C `float` is modelled by `CFloat`: either NaN or an exact rational value.
  No property under consideration depends on rounding, only on NaN-ness and
  order comparisons.
* Device access (DHT library reads, BH1750 reads, `analogRead`, `millis`) is
  modelled by passing the values the device would return as explicit
  arguments; class instances become state records threaded through the
  operations, so each C++ member function becomes a function
  `state → inputs → result × state`.
* `new` on the ESP32 toolchain does not return `nullptr` (it aborts on
  allocation failure), so the defensive `== nullptr` checks in the source are
  dead branches and the embedding treats the handle as always present; the
  `_dht == nullptr` / `_sensor == nullptr` disjuncts collapse into the
  `_initialized` test they accompany (before `begin`, `initialized` is false
  anyway).
* `unsigned long` on the ESP32 is 32 bits; clock subtraction in the scheduler
  is modelled modulo 2^32.
* The DHT library's `computeHeatIndex` is external library code; the
  operations that call it are parametrised by an arbitrary function
  `hix : CFloat → CFloat → CFloat` standing for it.
-/

/-- Model of a C `float`: NaN or an exact numeric value. -/
inductive CFloat where
  | nan : CFloat
  | val : ℚ → CFloat
deriving DecidableEq, Repr

/-- `isnan` from `<math.h>`. -/
def isnan : CFloat → Bool
  | .nan => true
  | .val _ => false

/-- IEEE-754 ordered `<`: any comparison involving NaN is false. -/
def CFloat.lt : CFloat → CFloat → Bool
  | .val a, .val b => decide (a < b)
  | _, _ => false

/-- IEEE-754 ordered `>`: any comparison involving NaN is false. -/
def CFloat.gt : CFloat → CFloat → Bool
  | .val a, .val b => decide (a > b)
  | _, _ => false

/-! ## DHT temperature/humidity sensor (`dht_sensor.h` / `dht_sensor.cpp`) -/

def TEMP_MIN : CFloat := .val (-40)

def TEMP_MAX : CFloat := .val 80

def HUMIDITY_MIN : CFloat := .val 0

def HUMIDITY_MAX : CFloat := .val 100

/-- Mutable state of class `DHTSensor`. -/
structure DHTSensor where
  lastTemp : CFloat
  lastHumidity : CFloat
  initialized : Bool
deriving DecidableEq, Repr

/-- `DHTSensor::DHTSensor()`. -/
def DHTSensor.mk0 : DHTSensor :=
  { lastTemp := .val 0, lastHumidity := .val 0, initialized := false }

/-- Reading struct `DHTReading`. -/
structure DHTReading where
  temperature : CFloat
  humidity : CFloat
  heatIndex : CFloat
  isValid : Bool
deriving DecidableEq, Repr

/-- `DHTSensor::validateReading(float temp, float humidity)`. -/
def DHTSensor.validateReading (temp humidity : CFloat) : Bool :=
  if isnan temp || isnan humidity then false
  else if temp.lt TEMP_MIN || temp.gt TEMP_MAX then false
  else if humidity.lt HUMIDITY_MIN || humidity.gt HUMIDITY_MAX then false
  else true

/-- Result of `DHTSensor::begin()` together with how many read attempts were
made (each attempt reads a temperature/humidity pair after a 2000 ms settle
delay). -/
structure DHTBeginResult where
  sensor : DHTSensor
  ok : Bool
  attempts : ℕ
deriving DecidableEq, Repr

/-- `DHTSensor::begin()`.  `r1` is the temperature/humidity pair the device
returns on the first read attempt (after the 2000 ms settle delay), `r2` the
pair it returns on the retry (after another 2000 ms delay); the retry is only
performed when the first attempt produced a NaN. -/
def DHTSensor.begin (s : DHTSensor) (r1 r2 : CFloat × CFloat) : DHTBeginResult :=
  let firstFailed := isnan r1.1 || isnan r1.2
  let final := if firstFailed then r2 else r1
  let attempts := if firstFailed then 2 else 1
  let initialized := !isnan final.1 && !isnan final.2
  let s' :=
    if initialized then
      { s with lastTemp := final.1, lastHumidity := final.2, initialized := true }
    else
      { s with initialized := false }
  { sensor := s', ok := initialized, attempts := attempts }

/-- `DHTSensor::read()`.  `temp` and `humidity` are what
`_dht->readTemperature()` / `_dht->readHumidity()` return on this call; `hix`
stands for the library's `computeHeatIndex` (with `isFahrenheit=false`). -/
def DHTSensor.read (s : DHTSensor) (hix : CFloat → CFloat → CFloat)
    (temp humidity : CFloat) : DHTReading × DHTSensor :=
  if !s.initialized then
    ({ temperature := .val 0, humidity := .val 0, heatIndex := .val 0,
       isValid := false }, s)
  else if DHTSensor.validateReading temp humidity then
    ({ temperature := temp, humidity := humidity, heatIndex := hix temp humidity,
       isValid := true },
     { s with lastTemp := temp, lastHumidity := humidity })
  else
    ({ temperature := s.lastTemp, humidity := s.lastHumidity,
       heatIndex := hix s.lastTemp s.lastHumidity, isValid := false }, s)

/-! ## BH1750 light sensor (`light_sensor.h` / `light_sensor.cpp`)

The BH1750 never returns NaN; it signals errors by a negative lux value, so
the lux readings are modelled directly as rationals. -/

def LIGHT_DARK : ℚ := 10

def LIGHT_DIM : ℚ := 50

def LIGHT_NORMAL : ℚ := 300

def LIGHT_BRIGHT : ℚ := 1000

inductive LightCondition where
  | CONDITION_DARK
  | CONDITION_DIM
  | CONDITION_NORMAL
  | CONDITION_BRIGHT
  | CONDITION_VERY_BRIGHT
deriving DecidableEq, Repr

/-- Position of a condition in the declared (ascending) enum order. -/
def LightCondition.rank : LightCondition → ℕ
  | .CONDITION_DARK => 0
  | .CONDITION_DIM => 1
  | .CONDITION_NORMAL => 2
  | .CONDITION_BRIGHT => 3
  | .CONDITION_VERY_BRIGHT => 4

/-- Mutable state of class `LightSensor`. -/
structure LightSensor where
  initialized : Bool
  lastLux : ℚ
deriving DecidableEq, Repr

/-- `LightSensor::LightSensor()`. -/
def LightSensor.mk0 : LightSensor :=
  { initialized := false, lastLux := 0 }

structure LightReading where
  lux : ℚ
  condition : LightCondition
  isValid : Bool
deriving DecidableEq, Repr

/-- `LightSensor::getCondition(float lux)`. -/
def LightSensor.getCondition (lux : ℚ) : LightCondition :=
  if lux < LIGHT_DARK then .CONDITION_DARK
  else if lux < LIGHT_DIM then .CONDITION_DIM
  else if lux < LIGHT_NORMAL then .CONDITION_NORMAL
  else if lux < LIGHT_BRIGHT then .CONDITION_BRIGHT
  else .CONDITION_VERY_BRIGHT

/-- Result of `LightSensor::begin()` together with how many read attempts
were made on the device. -/
structure LightBeginResult where
  sensor : LightSensor
  ok : Bool
  readAttempts : ℕ
deriving DecidableEq, Repr

/-- `LightSensor::begin()`.  `deviceBeginOk` is what
`_sensor->begin(CONTINUOUS_HIGH_RES_MODE)` returns; `lux` is what the single
`readLightLevel()` call after the 180 ms settle delay would return (the call
is only made when `deviceBeginOk` holds). -/
def LightSensor.begin (s : LightSensor) (deviceBeginOk : Bool) (lux : ℚ) :
    LightBeginResult :=
  if deviceBeginOk then
    if lux ≥ 0 then
      { sensor := { initialized := true, lastLux := lux }, ok := true,
        readAttempts := 1 }
    else
      { sensor := { s with initialized := true }, ok := true, readAttempts := 1 }
  else
    { sensor := { s with initialized := false }, ok := false, readAttempts := 0 }

/-- `LightSensor::read()`.  `devLux` is what `_sensor->readLightLevel()`
returns on this call. -/
def LightSensor.read (s : LightSensor) (devLux : ℚ) :
    LightReading × LightSensor :=
  if !s.initialized then
    ({ lux := 0, condition := .CONDITION_DARK, isValid := false }, s)
  else if devLux ≥ 0 then
    ({ lux := devLux, condition := LightSensor.getCondition devLux,
       isValid := true }, { s with lastLux := devLux })
  else
    ({ lux := s.lastLux, condition := LightSensor.getCondition s.lastLux,
       isValid := false }, s)

/-- `LightSensor::getLux()`.  `devLux` is what `_sensor->readLightLevel()`
returns on this call. -/
def LightSensor.getLux (s : LightSensor) (devLux : ℚ) : ℚ × LightSensor :=
  if !s.initialized then
    (0, s)
  else if devLux ≥ 0 then
    (devLux, { s with lastLux := devLux })
  else
    (s.lastLux, s)

/-! ## Analog microphone (`microphone.h` / `microphone.cpp`)

Raw ADC samples are 12-bit (`0..4095`) naturals.  A sampling burst is
modelled by a function `dev : ℕ → ℕ` giving the value `analogRead` returns on
the i-th call of the burst. -/

def AUDIO_SAMPLES : ℕ := 64

def AUDIO_NOISE_FLOOR : ℕ := 100

/-- Mutable state of class `MicrophoneSensor`. -/
structure MicrophoneSensor where
  peakLevel : ℕ
  lastLevel : ℕ
  runningSum : ℕ
  sampleCount : ℕ
deriving DecidableEq, Repr

/-- `MicrophoneSensor::MicrophoneSensor()`. -/
def MicrophoneSensor.mk0 : MicrophoneSensor :=
  { peakLevel := 0, lastLevel := 0, runningSum := 0, sampleCount := 0 }

structure AudioReading where
  level : ℕ
  peak : ℕ
  average : ℕ
  isValid : Bool
deriving DecidableEq, Repr

/-- The `AUDIO_SAMPLES` raw values read from the ADC in one burst. -/
def rawSamples (dev : ℕ → ℕ) : List ℕ :=
  (List.range AUDIO_SAMPLES).map dev

/-- `MicrophoneSensor::sampleAudio(int& minVal, int& maxVal, int& avgVal)`.
Returns `(minVal, maxVal, avgVal)`: the loop computes the running minimum
(initial 4095), running maximum (initial 0) and the sum of the burst, then
divides the sum by `AUDIO_SAMPLES`. -/
def MicrophoneSensor.sampleAudio (dev : ℕ → ℕ) : ℕ × ℕ × ℕ :=
  let samples := rawSamples dev
  let minVal := samples.foldl min 4095
  let maxVal := samples.foldl max 0
  let avgVal := samples.foldl (· + ·) 0 / AUDIO_SAMPLES
  (minVal, maxVal, avgVal)

/-- The conditioned level `read()` computes from one burst: peak-to-peak
amplitude after noise-floor suppression (lines 54–66 of `microphone.cpp`). -/
def conditionedLevel (dev : ℕ → ℕ) : ℕ :=
  let mma := MicrophoneSensor.sampleAudio dev
  let peakToPeak := mma.2.1 - mma.1
  if peakToPeak < AUDIO_NOISE_FLOOR then 0 else peakToPeak - AUDIO_NOISE_FLOOR

/-- `MicrophoneSensor::read()`. -/
def MicrophoneSensor.read (s : MicrophoneSensor) (dev : ℕ → ℕ) :
    AudioReading × MicrophoneSensor :=
  let level := conditionedLevel dev
  let peakLevel := if level > s.peakLevel then level else s.peakLevel
  let runningSum := s.runningSum + level
  let sampleCount := s.sampleCount + 1
  let average := if sampleCount > 0 then runningSum / sampleCount else 0
  ({ level := level, peak := peakLevel, average := average, isValid := true },
   { peakLevel := peakLevel, lastLevel := level, runningSum := runningSum,
     sampleCount := sampleCount })

/-- `MicrophoneSensor::resetPeak()`. -/
def MicrophoneSensor.resetPeak (s : MicrophoneSensor) : MicrophoneSensor :=
  { s with peakLevel := 0, runningSum := 0, sampleCount := 0 }

/-- `MicrophoneSensor::isAboveThreshold(int threshold)` (the threshold is a C
`int`, so it may be negative). -/
def MicrophoneSensor.isAboveThreshold (s : MicrophoneSensor) (threshold : ℤ) :
    Bool :=
  decide ((s.lastLevel : ℤ) > threshold)

/-- Run a sequence of `read()` calls (one burst description per call),
keeping only the state. -/
def runReads (s : MicrophoneSensor) (devs : List (ℕ → ℕ)) : MicrophoneSensor :=
  devs.foldl (fun st d => (st.read d).2) s

/-! ## Dual-rate scheduler (`main.cpp`) -/

def SENSOR_READ_INTERVAL : ℕ := 2000

def AUDIO_SAMPLE_INTERVAL : ℕ := 100

/-- `unsigned long` subtraction `a - b` on the ESP32 (32-bit, wrapping). -/
def usub (a b : ℕ) : ℕ :=
  (a % 2 ^ 32 + 2 ^ 32 - b % 2 ^ 32) % 2 ^ 32

/-- The global `struct SensorData sensorData` snapshot (`isValid` is zeroed
by the `memset` in `setup()` and never written afterwards). -/
structure SensorData where
  temperature : CFloat
  humidity : CFloat
  lightLevel : ℚ
  audioLevel : ℕ
  audioPeak : ℕ
  isValid : Bool
deriving DecidableEq, Repr

/-- The whole mutable state `loop()` works on: the two timer references, the
snapshot and the three sensor driver states. -/
structure SystemState where
  lastSensorRead : ℕ
  lastAudioSample : ℕ
  sensorData : SensorData
  mic : MicrophoneSensor
  dht : DHTSensor
  light : LightSensor

/-- What the devices would answer during one `loop()` iteration: the ADC
burst for the microphone, the DHT temperature/humidity pair and the BH1750
lux value. -/
structure LoopInputs where
  micDev : ℕ → ℕ
  dhtTemp : CFloat
  dhtHumidity : CFloat
  lightLux : ℚ

/-- Result of one `loop()` iteration.  `report` is the snapshot passed to
`printSensorData()` when it is called, `none` when it is not. -/
structure LoopResult where
  state : SystemState
  audioFired : Bool
  envFired : Bool
  report : Option SensorData

/-- The first `if` block of `loop()`: the audio timer.  Returns the updated
state and whether the timer fired. -/
def loopAudio (inp : LoopInputs) (now : ℕ) (st : SystemState) :
    SystemState × Bool :=
  if usub now st.lastAudioSample ≥ AUDIO_SAMPLE_INTERVAL then
    let ar := st.mic.read inp.micDev
    ({ st with lastAudioSample := now, mic := ar.2,
               sensorData := { st.sensorData with audioLevel := ar.1.level,
                                                  audioPeak := ar.1.peak } },
     true)
  else (st, false)

/-- The second `if` block of `loop()`: the environmental timer.  Returns the
updated state, whether the timer fired, and the snapshot handed to
`printSensorData()` when it fired. -/
def loopEnv (hix : CFloat → CFloat → CFloat) (inp : LoopInputs) (now : ℕ)
    (st : SystemState) : SystemState × Bool × Option SensorData :=
  if usub now st.lastSensorRead ≥ SENSOR_READ_INTERVAL then
    let dr := st.dht.read hix inp.dhtTemp inp.dhtHumidity
    let d1 :=
      if dr.1.isValid then
        { st.sensorData with temperature := dr.1.temperature,
                             humidity := dr.1.humidity }
      else st.sensorData
    let lr := st.light.read inp.lightLux
    let d2 := if lr.1.isValid then { d1 with lightLevel := lr.1.lux } else d1
    ({ st with lastSensorRead := now, sensorData := d2, dht := dr.2,
               light := lr.2, mic := st.mic.resetPeak },
     true, some d2)
  else (st, false, none)

/-- One iteration of `loop()`: the audio block, then the environmental block.
`now` is what `millis()` returns at the top of the iteration; `hix` stands
for the DHT library's `computeHeatIndex`. -/
def loopStep (hix : CFloat → CFloat → CFloat) (inp : LoopInputs) (now : ℕ)
    (st : SystemState) : LoopResult :=
  let a := loopAudio inp now st
  let e := loopEnv hix inp now a.1
  { state := e.1, audioFired := a.2, envFired := e.2.1, report := e.2.2 }

/-- Initial snapshot (`memset(&sensorData, 0, sizeof(sensorData))`). -/
def SensorData.mk0 : SensorData :=
  { temperature := .val 0, humidity := .val 0, lightLevel := 0, audioLevel := 0,
    audioPeak := 0, isValid := false }

/-- State at the end of `setup()` (ignoring `begin()` effects). -/
def SystemState.mk0 : SystemState :=
  { lastSensorRead := 0, lastAudioSample := 0, sensorData := SensorData.mk0,
    mic := MicrophoneSensor.mk0, dht := DHTSensor.mk0, light := LightSensor.mk0 }

/-! ## Helper lemmas about the running folds -/

theorem le_foldl_max (l : List ℕ) (a : ℕ) : a ≤ l.foldl max a := by
  induction l generalizing a with
  | nil => exact le_refl a
  | cons b t ih => exact le_trans (Nat.le_max_left a b) (ih (max a b))

theorem foldl_max_le (l : List ℕ) (a : ℕ) : ∀ x ∈ l, x ≤ l.foldl max a := by
  induction l generalizing a with
  | nil => intro x hx; cases hx
  | cons b t ih =>
    intro x hx
    rcases List.mem_cons.mp hx with h | h
    · subst h
      exact le_trans (Nat.le_max_right a x) (le_foldl_max t (max a x))
    · exact ih (max a b) x h

theorem foldl_max_mem (l : List ℕ) (a : ℕ) :
    l.foldl max a ∈ l ∨ l.foldl max a = a := by
  induction l generalizing a with
  | nil => exact Or.inr rfl
  | cons b t ih =>
    rcases ih (max a b) with h | h
    · exact Or.inl (List.mem_cons_of_mem b h)
    · simp only [List.foldl_cons, h]
      rcases Nat.le_total a b with hab | hab
      · exact Or.inl (by simp [Nat.max_eq_right hab])
      · exact Or.inr (Nat.max_eq_left hab)

theorem foldl_min_le (l : List ℕ) (a : ℕ) : l.foldl min a ≤ a := by
  induction l generalizing a with
  | nil => exact le_refl a
  | cons b t ih => exact le_trans (ih (min a b)) (Nat.min_le_left a b)

theorem foldl_min_le_mem (l : List ℕ) (a : ℕ) : ∀ x ∈ l, l.foldl min a ≤ x := by
  induction l generalizing a with
  | nil => intro x hx; cases hx
  | cons b t ih =>
    intro x hx
    rcases List.mem_cons.mp hx with h | h
    · subst h
      exact le_trans (foldl_min_le t (min a x)) (Nat.min_le_right a x)
    · exact ih (min a b) x h

theorem foldl_min_mem (l : List ℕ) (a : ℕ) :
    l.foldl min a ∈ l ∨ l.foldl min a = a := by
  induction l generalizing a with
  | nil => exact Or.inr rfl
  | cons b t ih =>
    rcases ih (min a b) with h | h
    · exact Or.inl (List.mem_cons_of_mem b h)
    · simp only [List.foldl_cons, h]
      rcases Nat.le_total a b with hab | hab
      · exact Or.inr (Nat.min_eq_left hab)
      · exact Or.inl (by simp [Nat.min_eq_right hab])

/-! ## Claims -/

/-- C6: `validateReading` accepts exactly the non-NaN pairs with temperature
in [-40, 80] and humidity in [0, 100], bounds inclusive; any NaN or any value
strictly outside its range is rejected. -/
theorem validateReading_bounds_C6 :
    (∀ tq hq : ℚ,
      DHTSensor.validateReading (.val tq) (.val hq) = true ↔
        -40 ≤ tq ∧ tq ≤ 80 ∧ 0 ≤ hq ∧ hq ≤ 100) ∧
    (∀ h : CFloat, DHTSensor.validateReading .nan h = false) ∧
    (∀ t : CFloat, DHTSensor.validateReading t .nan = false) ∧
    DHTSensor.validateReading (.val (-40)) (.val 0) = true ∧
    DHTSensor.validateReading (.val 80) (.val 100) = true ∧
    DHTSensor.validateReading (.val (-41)) (.val 50) = false ∧
    DHTSensor.validateReading (.val 20) (.val 101) = false := by
  refine ⟨fun tq hq => ?_, fun h => rfl, fun t => ?_, by decide, by decide,
    by decide, by decide⟩
  · simp only [DHTSensor.validateReading, isnan, CFloat.lt, CFloat.gt,
      TEMP_MIN, TEMP_MAX, HUMIDITY_MIN, HUMIDITY_MAX, Bool.or_self,
      Bool.false_or, Bool.or_eq_true, decide_eq_true_eq, gt_iff_lt]
    constructor
    · intro hv
      by_cases h1 : tq < -40 ∨ 80 < tq
      · simp [h1] at hv
      · by_cases h2 : hq < 0 ∨ 100 < hq
        · simp [h1, h2] at hv
        · push_neg at h1 h2
          exact ⟨h1.1, h1.2, h2.1, h2.2⟩
    · intro ⟨h1, h2, h3, h4⟩
      have e1 : ¬(tq < -40 ∨ 80 < tq) := by push_neg; exact ⟨h1, h2⟩
      have e2 : ¬(hq < 0 ∨ 100 < hq) := by push_neg; exact ⟨h3, h4⟩
      simp [e1, e2]
  · cases t <;> rfl

/-- C7: `getCondition` classifies lux by the ascending thresholds
10 / 50 / 300 / 1000 with strict `<` comparisons, is boundary-correct at the
quoted sample points, and is monotone in lux. -/
theorem getCondition_thresholds_C7 :
    (∀ lux : ℚ,
      (LightSensor.getCondition lux = .CONDITION_DARK ↔ lux < 10) ∧
      (LightSensor.getCondition lux = .CONDITION_DIM ↔ 10 ≤ lux ∧ lux < 50) ∧
      (LightSensor.getCondition lux = .CONDITION_NORMAL ↔ 50 ≤ lux ∧ lux < 300) ∧
      (LightSensor.getCondition lux = .CONDITION_BRIGHT ↔ 300 ≤ lux ∧ lux < 1000) ∧
      (LightSensor.getCondition lux = .CONDITION_VERY_BRIGHT ↔ 1000 ≤ lux)) ∧
    LightSensor.getCondition (999 / 100) = .CONDITION_DARK ∧
    LightSensor.getCondition 10 = .CONDITION_DIM ∧
    LightSensor.getCondition (4999 / 100) = .CONDITION_DIM ∧
    LightSensor.getCondition 50 = .CONDITION_NORMAL ∧
    LightSensor.getCondition (99999 / 100) = .CONDITION_BRIGHT ∧
    LightSensor.getCondition 1000 = .CONDITION_VERY_BRIGHT ∧
    (∀ a b : ℚ, a ≤ b →
      (LightSensor.getCondition a).rank ≤ (LightSensor.getCondition b).rank) := by
  refine ⟨fun lux => ?_,
    by norm_num [LightSensor.getCondition, LIGHT_DARK, LIGHT_DIM, LIGHT_NORMAL, LIGHT_BRIGHT],
    by norm_num [LightSensor.getCondition, LIGHT_DARK, LIGHT_DIM, LIGHT_NORMAL, LIGHT_BRIGHT],
    by norm_num [LightSensor.getCondition, LIGHT_DARK, LIGHT_DIM, LIGHT_NORMAL, LIGHT_BRIGHT],
    by norm_num [LightSensor.getCondition, LIGHT_DARK, LIGHT_DIM, LIGHT_NORMAL, LIGHT_BRIGHT],
    by norm_num [LightSensor.getCondition, LIGHT_DARK, LIGHT_DIM, LIGHT_NORMAL, LIGHT_BRIGHT],
    by norm_num [LightSensor.getCondition, LIGHT_DARK, LIGHT_DIM, LIGHT_NORMAL, LIGHT_BRIGHT],
    fun a b hab => ?_⟩
  · unfold LightSensor.getCondition LIGHT_DARK LIGHT_DIM LIGHT_NORMAL LIGHT_BRIGHT
    split_ifs with h1 h2 h3 h4 <;>
      refine ⟨?_, ?_, ?_, ?_, ?_⟩ <;> simp <;> intros <;>
        first | rfl | linarith | exact ⟨by linarith, by linarith⟩
  · unfold LightSensor.getCondition LIGHT_DARK LIGHT_DIM LIGHT_NORMAL LIGHT_BRIGHT
    split_ifs <;> simp [LightCondition.rank] <;> linarith

/-- C7 witness: monotonicity at the concrete pair 5 ≤ 700
(Dark rank ≤ Bright rank). -/
theorem getCondition_thresholds_C7_witness :
    (LightSensor.getCondition 5).rank ≤ (LightSensor.getCondition 700).rank :=
  getCondition_thresholds_C7.2.2.2.2.2.2.2 5 700 (by norm_num)

/-- C9: `resetPeak()` zeroes `peak`, `runningSum` and `sampleCount`, leaves
`lastLevel` unchanged (so `isAboveThreshold` is unaffected), and the first
`read()` after a reset returns a peak equal to that read's own level. -/
theorem resetPeak_effect_C9 :
    ∀ s : MicrophoneSensor,
      s.resetPeak.peakLevel = 0 ∧
      s.resetPeak.runningSum = 0 ∧
      s.resetPeak.sampleCount = 0 ∧
      s.resetPeak.lastLevel = s.lastLevel ∧
      (∀ t : ℤ, s.resetPeak.isAboveThreshold t = s.isAboveThreshold t) ∧
      (∀ dev : ℕ → ℕ, (s.resetPeak.read dev).1.peak = (s.resetPeak.read dev).1.level) := by
  intro s
  refine ⟨rfl, rfl, rfl, rfl, fun t => rfl, fun dev => ?_⟩
  simp only [MicrophoneSensor.read, MicrophoneSensor.resetPeak]
  split <;> omega

/-- C10: `getLux()` and `read()` agree on the lux value and on the resulting
sensor state for every state and every device response: uninitialized gives
lux 0, a nonnegative device value is returned and stored, a negative device
value yields the stored last-good lux with the state unchanged. -/
theorem getLux_read_equiv_C10 :
    ∀ (s : LightSensor) (devLux : ℚ),
      ((s.read devLux).1.lux = (s.getLux devLux).1 ∧
       (s.read devLux).2 = (s.getLux devLux).2) ∧
      (s.initialized = false →
        (s.read devLux).1.lux = 0 ∧ (s.getLux devLux).1 = 0 ∧
        (s.read devLux).2 = s ∧ (s.getLux devLux).2 = s) ∧
      (s.initialized = true → 0 ≤ devLux →
        (s.read devLux).1.lux = devLux ∧ (s.read devLux).2.lastLux = devLux) ∧
      (s.initialized = true → devLux < 0 →
        (s.read devLux).1.lux = s.lastLux ∧ (s.read devLux).2 = s) := by
  intro s devLux
  rcases s with ⟨init, last⟩
  cases init
  · simp [LightSensor.read, LightSensor.getLux]
  · by_cases h : 0 ≤ devLux
    · have h2 : ¬devLux < 0 := not_lt.mpr h
      simp [LightSensor.read, LightSensor.getLux, h, h2]
    · have h2 : devLux < 0 := not_le.mp h
      simp [LightSensor.read, LightSensor.getLux, h, h2]

/-- C10 witness at a concrete initialized state and a failing (negative)
device response. -/
theorem getLux_read_equiv_C10_witness :
    (({ initialized := true, lastLux := 7 } : LightSensor).read (-1)).1.lux = 7 ∧
    (({ initialized := true, lastLux := 7 } : LightSensor).read (-1)).2 =
      { initialized := true, lastLux := 7 } :=
  (getLux_read_equiv_C10 { initialized := true, lastLux := 7 } (-1)).2.2.2
    rfl (by norm_num)

/-- C2: after a successful `begin()` (so `initialized = true`), a `read()`
whose raw pair fails validation returns the stored last-good temperature and
humidity together with the heat index computed from those last-good values,
with `isValid = false`, and does not change the stored state; before any
successful `begin()`, `read()` returns all-zero values with
`isValid = false`. -/
theorem dht_read_fallback_C2 :
    ∀ (s : DHTSensor) (hix : CFloat → CFloat → CFloat) (t h : CFloat),
      (s.initialized = false →
        s.read hix t h =
          ({ temperature := .val 0, humidity := .val 0, heatIndex := .val 0,
             isValid := false }, s)) ∧
      (s.initialized = true → DHTSensor.validateReading t h = false →
        s.read hix t h =
          ({ temperature := s.lastTemp, humidity := s.lastHumidity,
             heatIndex := hix s.lastTemp s.lastHumidity, isValid := false }, s)) := by
  intro s hix t h
  constructor
  · intro h1
    simp [DHTSensor.read, h1]
  · intro h1 h2
    simp [DHTSensor.read, h1, h2]

/-- C2 witness: with last-good temperature 22.5 °C and humidity 40 %, a NaN
temperature read falls back to 22.5 °C (not zero) and leaves the state
unchanged. -/
theorem dht_read_fallback_C2_witness :
    ({ lastTemp := .val (45 / 2), lastHumidity := .val 40,
       initialized := true } : DHTSensor).read (fun a _ => a) .nan (.val 50) =
      ({ temperature := .val (45 / 2), humidity := .val 40,
         heatIndex := .val (45 / 2), isValid := false },
       { lastTemp := .val (45 / 2), lastHumidity := .val 40,
         initialized := true }) :=
  (dht_read_fallback_C2
    { lastTemp := .val (45 / 2), lastHumidity := .val 40, initialized := true }
    (fun a _ => a) .nan (.val 50)).2 rfl rfl

/-- C1 counterexample: the light reader's `begin()` with a device-level
`begin` success and a failing (negative) reading still ends with
`initialized = true`, and performs no retry (a single read attempt), contrary
to the claim that every environmental reader retries once and ends
initialized iff the (re)read succeeds. -/
theorem light_begin_C1_counterexample :
    (LightSensor.mk0.begin true (-1)).sensor.initialized = true ∧
    (LightSensor.mk0.begin true (-1)).readAttempts = 1 ∧
    ((-1 : ℚ) < 0) := by
  refine ⟨rfl, ?_, by norm_num⟩
  norm_num [LightSensor.begin, LightSensor.mk0]

/-- C1 amended: the temperature/humidity reader's `begin()` attempts one
reading after the settle delay, retries exactly once after another settle
delay only if that reading fails, and ends with `initialized = true` iff the
final (first or retried) reading succeeds.  The light reader's `begin()`
performs no read-retry: it ends with `initialized = true` iff the
device-level `begin()` succeeds; in that case a single reading is attempted
after the settle delay solely to seed the last-good lux (stored iff
nonnegative), and that reading's outcome does not affect `initialized`. -/
theorem begin_retry_C1_amended :
    (∀ (s : DHTSensor) (r1 r2 : CFloat × CFloat),
      (isnan r1.1 || isnan r1.2) = false →
        (s.begin r1 r2).attempts = 1 ∧
        (s.begin r1 r2).sensor.initialized = true ∧
        (s.begin r1 r2).ok = true ∧
        (s.begin r1 r2).sensor.lastTemp = r1.1 ∧
        (s.begin r1 r2).sensor.lastHumidity = r1.2) ∧
    (∀ (s : DHTSensor) (r1 r2 : CFloat × CFloat),
      (isnan r1.1 || isnan r1.2) = true →
        (s.begin r1 r2).attempts = 2 ∧
        (s.begin r1 r2).sensor.initialized = (!isnan r2.1 && !isnan r2.2) ∧
        (s.begin r1 r2).ok = (s.begin r1 r2).sensor.initialized) ∧
    (∀ (s : LightSensor) (deviceBeginOk : Bool) (lux : ℚ),
      (s.begin deviceBeginOk lux).sensor.initialized = deviceBeginOk ∧
      (s.begin deviceBeginOk lux).ok = deviceBeginOk ∧
      (s.begin deviceBeginOk lux).readAttempts =
        (if deviceBeginOk then 1 else 0) ∧
      (deviceBeginOk = true → 0 ≤ lux →
        (s.begin deviceBeginOk lux).sensor.lastLux = lux) ∧
      (deviceBeginOk = true → lux < 0 →
        (s.begin deviceBeginOk lux).sensor.lastLux = s.lastLux) ∧
      (deviceBeginOk = false →
        (s.begin deviceBeginOk lux).sensor.lastLux = s.lastLux)) := by
  refine ⟨fun s r1 r2 h1 => ?_, fun s r1 r2 h1 => ?_,
    fun s deviceBeginOk lux => ?_⟩
  · have ht : isnan r1.1 = false := by
      cases hx : isnan r1.1 <;> simp_all
    have hh : isnan r1.2 = false := by
      cases hx : isnan r1.2 <;> simp_all
    simp [DHTSensor.begin, ht, hh]
  · simp [DHTSensor.begin, h1]
    cases hx : isnan r2.1 <;> cases hy : isnan r2.2 <;> simp [hx, hy]
  · cases deviceBeginOk
    · simp [LightSensor.begin]
    · by_cases h : 0 ≤ lux
      · have h2 : ¬lux < 0 := not_lt.mpr h
        simp [LightSensor.begin, h, h2]
      · have h2 : lux < 0 := not_le.mp h
        simp [LightSensor.begin, h, h2]

/-- The state update of one `read()`: peak becomes the max with the new
level, the sum and count accumulate. -/
theorem read_state_update (s : MicrophoneSensor) (d : ℕ → ℕ) :
    (s.read d).2.peakLevel = max s.peakLevel (conditionedLevel d) ∧
    (s.read d).2.runningSum = s.runningSum + conditionedLevel d ∧
    (s.read d).2.sampleCount = s.sampleCount + 1 := by
  refine ⟨?_, rfl, rfl⟩
  simp only [MicrophoneSensor.read]
  split <;> omega

/-- Accumulator invariant of a sequence of `read()` calls. -/
theorem runReads_state (devs : List (ℕ → ℕ)) :
    ∀ s : MicrophoneSensor,
      (runReads s devs).peakLevel =
        (devs.map conditionedLevel).foldl max s.peakLevel ∧
      (runReads s devs).runningSum =
        s.runningSum + (devs.map conditionedLevel).sum ∧
      (runReads s devs).sampleCount = s.sampleCount + devs.length := by
  induction devs with
  | nil => intro s; simp [runReads]
  | cons d ds ih =>
    intro s
    have hstep := read_state_update s d
    have hrec := ih (s.read d).2
    have hl : runReads s (d :: ds) = runReads (s.read d).2 ds := by
      simp [runReads]
    refine ⟨?_, ?_, ?_⟩
    · rw [hl, hrec.1, hstep.1]
      simp
    · rw [hl, hrec.2.1, hstep.2.1]
      simp [add_assoc]
    · rw [hl, hrec.2.2, hstep.2.2]
      simp [List.length_cons]
      omega

/-- C3: for any n ≥ 1 reads since the last reset with conditioned levels
L1..Ln, the n-th `read()` returns `peak = max(L1..Ln)`,
`average = (L1+...+Ln) / n` (integer division), and `isValid = true`. -/
theorem mic_peak_average_C3 :
    ∀ (s : MicrophoneSensor) (devs : List (ℕ → ℕ)) (d : ℕ → ℕ),
      ((runReads s.resetPeak devs).read d).1.peak =
        ((devs ++ [d]).map conditionedLevel).foldl max 0 ∧
      ((runReads s.resetPeak devs).read d).1.average =
        ((devs ++ [d]).map conditionedLevel).sum / (devs.length + 1) ∧
      ((runReads s.resetPeak devs).read d).1.isValid = true := by
  intro s devs d
  have hinv := runReads_state devs s.resetPeak
  have h0 : s.resetPeak.peakLevel = 0 := rfl
  have h1 : s.resetPeak.runningSum = 0 := rfl
  have h2 : s.resetPeak.sampleCount = 0 := rfl
  rw [h0] at hinv
  rw [h1] at hinv
  rw [h2] at hinv
  refine ⟨?_, ?_, rfl⟩
  · have hr : ((runReads s.resetPeak devs).read d).1.peak =
        max (runReads s.resetPeak devs).peakLevel (conditionedLevel d) := by
      simp only [MicrophoneSensor.read]
      split <;> omega
    rw [hr, hinv.1]
    simp [List.foldl_append]
  · have hr : ((runReads s.resetPeak devs).read d).1.average =
        ((runReads s.resetPeak devs).runningSum + conditionedLevel d) /
          ((runReads s.resetPeak devs).sampleCount + 1) := by
      simp [MicrophoneSensor.read]
    rw [hr, hinv.2.1, hinv.2.2]
    simp [List.sum_append]

/-- The `level` field of a `read()` result is the conditioned level of the
burst. -/
theorem read_level (s : MicrophoneSensor) (dev : ℕ → ℕ) :
    (s.read dev).1.level = conditionedLevel dev := by
  simp only [MicrophoneSensor.read]

/-- Unfolding of the noise-floor suppression (lines 54–66 of
`microphone.cpp`). -/
theorem conditionedLevel_eq (dev : ℕ → ℕ) :
    conditionedLevel dev =
      (if (MicrophoneSensor.sampleAudio dev).2.1 -
            (MicrophoneSensor.sampleAudio dev).1 < 100 then 0
       else (MicrophoneSensor.sampleAudio dev).2.1 -
            (MicrophoneSensor.sampleAudio dev).1 - 100) := by
  simp only [conditionedLevel, AUDIO_NOISE_FLOOR]

/-- C4: one `read()` acquires exactly 64 raw samples (`AUDIO_SAMPLES = 64`),
computes the peak-to-peak amplitude as the difference of the true maximum and
minimum of those samples, and suppresses the noise floor
(`AUDIO_NOISE_FLOOR = 100`): level 0 when max-min < 100, max-min - 100
otherwise; in particular max-min = 150 gives level 50 and max-min = 80 gives
level 0. -/
theorem mic_sampling_C4 :
    ∀ dev : ℕ → ℕ, (∀ i < AUDIO_SAMPLES, dev i ≤ 4095) →
      (rawSamples dev).length = 64 ∧
      AUDIO_SAMPLES = 64 ∧
      AUDIO_NOISE_FLOOR = 100 ∧
      ((MicrophoneSensor.sampleAudio dev).1 ∈ rawSamples dev ∧
        ∀ x ∈ rawSamples dev, (MicrophoneSensor.sampleAudio dev).1 ≤ x) ∧
      ((MicrophoneSensor.sampleAudio dev).2.1 ∈ rawSamples dev ∧
        ∀ x ∈ rawSamples dev, x ≤ (MicrophoneSensor.sampleAudio dev).2.1) ∧
      (∀ s : MicrophoneSensor,
        ((s.read dev).1.level =
          (if (MicrophoneSensor.sampleAudio dev).2.1 -
                (MicrophoneSensor.sampleAudio dev).1 < 100 then 0
           else (MicrophoneSensor.sampleAudio dev).2.1 -
                (MicrophoneSensor.sampleAudio dev).1 - 100)) ∧
        ((MicrophoneSensor.sampleAudio dev).2.1 -
            (MicrophoneSensor.sampleAudio dev).1 = 150 →
          (s.read dev).1.level = 50) ∧
        ((MicrophoneSensor.sampleAudio dev).2.1 -
            (MicrophoneSensor.sampleAudio dev).1 = 80 →
          (s.read dev).1.level = 0)) := by
  intro dev hdev
  have hne : rawSamples dev ≠ [] := by
    simp [rawSamples, AUDIO_SAMPLES]
  have hhead : dev 0 ∈ rawSamples dev := by
    simp only [rawSamples]
    exact List.mem_map_of_mem dev (by simp [AUDIO_SAMPLES])
  have hbound : ∀ x ∈ rawSamples dev, x ≤ 4095 := by
    intro x hx
    simp only [rawSamples, List.mem_map, List.mem_range] at hx
    obtain ⟨i, hi, rfl⟩ := hx
    exact hdev i hi
  have hmin_eq : (MicrophoneSensor.sampleAudio dev).1 =
      (rawSamples dev).foldl min 4095 := rfl
  have hmax_eq : (MicrophoneSensor.sampleAudio dev).2.1 =
      (rawSamples dev).foldl max 0 := rfl
  have hminmem : (MicrophoneSensor.sampleAudio dev).1 ∈ rawSamples dev := by
    rcases foldl_min_mem (rawSamples dev) 4095 with h | h
    · rw [hmin_eq]; exact h
    · have h1 := foldl_min_le_mem (rawSamples dev) 4095 (dev 0) hhead
      have h2 := hbound (dev 0) hhead
      have h3 : dev 0 = (rawSamples dev).foldl min 4095 := by omega
      rw [hmin_eq, ← h3]; exact hhead
  have hmaxmem : (MicrophoneSensor.sampleAudio dev).2.1 ∈ rawSamples dev := by
    rcases foldl_max_mem (rawSamples dev) 0 with h | h
    · rw [hmax_eq]; exact h
    · have h1 := foldl_max_le (rawSamples dev) 0 (dev 0) hhead
      have h3 : dev 0 = (rawSamples dev).foldl max 0 := by omega
      rw [hmax_eq, ← h3]; exact hhead
  refine ⟨by simp [rawSamples, AUDIO_SAMPLES], rfl, rfl,
    ⟨hminmem, fun x hx => foldl_min_le_mem (rawSamples dev) 4095 x hx⟩,
    ⟨hmaxmem, fun x hx => foldl_max_le (rawSamples dev) 0 x hx⟩,
    fun s => ⟨(read_level s dev).trans (conditionedLevel_eq dev),
      fun h150 => ?_, fun h80 => ?_⟩⟩
  · rw [read_level s dev, conditionedLevel_eq dev, h150]
    norm_num
  · rw [read_level s dev, conditionedLevel_eq dev, h80]
    norm_num

/-- C4 witness: a burst whose first sample is 150 and the rest 0 has
max-min = 150 and yields level 50. -/
theorem mic_sampling_C4_witness :
    ((MicrophoneSensor.mk0.read fun i => if i = 0 then 150 else 0).1.level =
      (if (MicrophoneSensor.sampleAudio fun i => if i = 0 then 150 else 0).2.1 -
            (MicrophoneSensor.sampleAudio fun i => if i = 0 then 150 else 0).1 < 100
        then 0
        else (MicrophoneSensor.sampleAudio fun i => if i = 0 then 150 else 0).2.1 -
            (MicrophoneSensor.sampleAudio fun i => if i = 0 then 150 else 0).1 - 100)) ∧
    (MicrophoneSensor.mk0.read fun i => if i = 0 then 150 else 0).1.level = 50 :=
  ⟨((mic_sampling_C4 (fun i => if i = 0 then 150 else 0)
      (by intro i _; by_cases h : i = 0 <;> simp [h])).2.2.2.2.2
        MicrophoneSensor.mk0).1,
   ((mic_sampling_C4 (fun i => if i = 0 then 150 else 0)
      (by intro i _; by_cases h : i = 0 <;> simp [h])).2.2.2.2.2
        MicrophoneSensor.mk0).2.1 (by decide)⟩

/-- Effect of the audio block when due. -/
theorem loopAudio_pos (inp : LoopInputs) (now : ℕ) (st : SystemState)
    (ha : AUDIO_SAMPLE_INTERVAL ≤ usub now st.lastAudioSample) :
    (loopAudio inp now st).2 = true ∧
    (loopAudio inp now st).1.lastAudioSample = now ∧
    (loopAudio inp now st).1.lastSensorRead = st.lastSensorRead ∧
    (loopAudio inp now st).1.dht = st.dht ∧
    (loopAudio inp now st).1.light = st.light ∧
    (loopAudio inp now st).1.mic = (st.mic.read inp.micDev).2 ∧
    (loopAudio inp now st).1.sensorData.temperature =
      st.sensorData.temperature ∧
    (loopAudio inp now st).1.sensorData.humidity = st.sensorData.humidity ∧
    (loopAudio inp now st).1.sensorData.lightLevel =
      st.sensorData.lightLevel := by
  simp [loopAudio, ha]

/-- Effect of the audio block when not due. -/
theorem loopAudio_neg (inp : LoopInputs) (now : ℕ) (st : SystemState)
    (ha : ¬AUDIO_SAMPLE_INTERVAL ≤ usub now st.lastAudioSample) :
    (loopAudio inp now st).2 = false ∧ (loopAudio inp now st).1 = st := by
  simp [loopAudio, ha]

/-- Effect of the environmental block when due. -/
theorem loopEnv_pos (hix : CFloat → CFloat → CFloat) (inp : LoopInputs)
    (now : ℕ) (st : SystemState)
    (he : SENSOR_READ_INTERVAL ≤ usub now st.lastSensorRead) :
    (loopEnv hix inp now st).2.1 = true ∧
    (loopEnv hix inp now st).1.lastSensorRead = now ∧
    (loopEnv hix inp now st).1.lastAudioSample = st.lastAudioSample ∧
    (loopEnv hix inp now st).1.mic = st.mic.resetPeak ∧
    (loopEnv hix inp now st).2.2 =
      some (loopEnv hix inp now st).1.sensorData ∧
    ((st.dht.read hix inp.dhtTemp inp.dhtHumidity).1.isValid = false →
      (loopEnv hix inp now st).1.sensorData.temperature =
        st.sensorData.temperature ∧
      (loopEnv hix inp now st).1.sensorData.humidity =
        st.sensorData.humidity) ∧
    ((st.dht.read hix inp.dhtTemp inp.dhtHumidity).1.isValid = true →
      (loopEnv hix inp now st).1.sensorData.temperature =
        (st.dht.read hix inp.dhtTemp inp.dhtHumidity).1.temperature ∧
      (loopEnv hix inp now st).1.sensorData.humidity =
        (st.dht.read hix inp.dhtTemp inp.dhtHumidity).1.humidity) ∧
    ((st.light.read inp.lightLux).1.isValid = false →
      (loopEnv hix inp now st).1.sensorData.lightLevel =
        st.sensorData.lightLevel) ∧
    ((st.light.read inp.lightLux).1.isValid = true →
      (loopEnv hix inp now st).1.sensorData.lightLevel =
        (st.light.read inp.lightLux).1.lux) := by
  by_cases hd : (st.dht.read hix inp.dhtTemp inp.dhtHumidity).1.isValid <;>
    by_cases hl : (st.light.read inp.lightLux).1.isValid <;>
      simp [loopEnv, he, hd, hl]

/-- Effect of the environmental block when not due. -/
theorem loopEnv_neg (hix : CFloat → CFloat → CFloat) (inp : LoopInputs)
    (now : ℕ) (st : SystemState)
    (he : ¬SENSOR_READ_INTERVAL ≤ usub now st.lastSensorRead) :
    (loopEnv hix inp now st).2.1 = false ∧ (loopEnv hix inp now st).1 = st ∧
    (loopEnv hix inp now st).2.2 = none := by
  simp [loopEnv, he]

/-- `loopStep` is the sequential composition of the two blocks. -/
theorem loopStep_eq (hix : CFloat → CFloat → CFloat) (inp : LoopInputs)
    (now : ℕ) (st : SystemState) :
    (loopStep hix inp now st).audioFired = (loopAudio inp now st).2 ∧
    (loopStep hix inp now st).envFired =
      (loopEnv hix inp now (loopAudio inp now st).1).2.1 ∧
    (loopStep hix inp now st).state =
      (loopEnv hix inp now (loopAudio inp now st).1).1 ∧
    (loopStep hix inp now st).report =
      (loopEnv hix inp now (loopAudio inp now st).1).2.2 :=
  ⟨rfl, rfl, rfl, rfl⟩

/-- C5: each timer fires on a tick iff `now - lastFireTime ≥ interval`
(32-bit wrapping subtraction; 100 ms audio, 2000 ms environmental), a firing
timer's reference time becomes the tick's `now` (so consecutive reference
times are at least the interval apart), and a non-firing timer's reference
time is unchanged. -/
theorem scheduler_timers_C5 :
    ∀ (hix : CFloat → CFloat → CFloat) (inp : LoopInputs) (now : ℕ)
      (st : SystemState),
      ((loopStep hix inp now st).audioFired = true ↔
        AUDIO_SAMPLE_INTERVAL ≤ usub now st.lastAudioSample) ∧
      ((loopStep hix inp now st).audioFired = true →
        (loopStep hix inp now st).state.lastAudioSample = now ∧
        AUDIO_SAMPLE_INTERVAL ≤
          usub (loopStep hix inp now st).state.lastAudioSample
            st.lastAudioSample) ∧
      ((loopStep hix inp now st).audioFired = false →
        (loopStep hix inp now st).state.lastAudioSample = st.lastAudioSample) ∧
      ((loopStep hix inp now st).envFired = true ↔
        SENSOR_READ_INTERVAL ≤ usub now st.lastSensorRead) ∧
      ((loopStep hix inp now st).envFired = true →
        (loopStep hix inp now st).state.lastSensorRead = now ∧
        SENSOR_READ_INTERVAL ≤
          usub (loopStep hix inp now st).state.lastSensorRead
            st.lastSensorRead) ∧
      ((loopStep hix inp now st).envFired = false →
        (loopStep hix inp now st).state.lastSensorRead = st.lastSensorRead) := by
  intro hix inp now st
  obtain ⟨hA, hE, hS, hR⟩ := loopStep_eq hix inp now st
  by_cases ha : AUDIO_SAMPLE_INTERVAL ≤ usub now st.lastAudioSample
  · obtain ⟨a1, a2, a3, a4, a5, a6, a7, a8, a9⟩ := loopAudio_pos inp now st ha
    by_cases he : SENSOR_READ_INTERVAL ≤ usub now st.lastSensorRead
    · have he' : SENSOR_READ_INTERVAL ≤
          usub now (loopAudio inp now st).1.lastSensorRead := by
        rw [a3]; exact he
      obtain ⟨e1, e2, e3, e4, e5, e6, e7, e8, e9⟩ :=
        loopEnv_pos hix inp now _ he'
      refine ⟨?_, ?_, ?_, ?_, ?_, ?_⟩ <;>
        simp [hA, hE, hS, a1, a2, a3, e1, e2, e3, ha, he]
    · have he' : ¬SENSOR_READ_INTERVAL ≤
          usub now (loopAudio inp now st).1.lastSensorRead := by
        rw [a3]; exact he
      obtain ⟨e1, e2, e3⟩ := loopEnv_neg hix inp now _ he'
      refine ⟨?_, ?_, ?_, ?_, ?_, ?_⟩ <;>
        simp [hA, hE, hS, a1, a2, a3, e1, e2, e3, ha, he]
  · obtain ⟨a1, a2⟩ := loopAudio_neg inp now st ha
    rw [a2] at hE hS hR
    by_cases he : SENSOR_READ_INTERVAL ≤ usub now st.lastSensorRead
    · obtain ⟨e1, e2, e3, e4, e5, e6, e7, e8, e9⟩ :=
        loopEnv_pos hix inp now st he
      refine ⟨?_, ?_, ?_, ?_, ?_, ?_⟩ <;>
        simp [hA, hE, hS, a1, e1, e2, e3, ha, he]
    · obtain ⟨e1, e2, e3⟩ := loopEnv_neg hix inp now st he
      refine ⟨?_, ?_, ?_, ?_, ?_, ?_⟩ <;>
        simp [hA, hE, hS, a1, e1, e2, e3, ha, he]

/-- C5 witness: from the reset state at tick 2500 both timers fire and both
reference times become 2500. -/
theorem scheduler_timers_C5_witness :
    (loopStep (fun a _ => a) ⟨fun _ => 0, .val 20, .val 50, 5⟩ 2500
      SystemState.mk0).state.lastAudioSample = 2500 ∧
    (loopStep (fun a _ => a) ⟨fun _ => 0, .val 20, .val 50, 5⟩ 2500
      SystemState.mk0).state.lastSensorRead = 2500 :=
  ⟨((scheduler_timers_C5 (fun a _ => a) ⟨fun _ => 0, .val 20, .val 50, 5⟩ 2500
        SystemState.mk0).2.1
      ((scheduler_timers_C5 (fun a _ => a) ⟨fun _ => 0, .val 20, .val 50, 5⟩
          2500 SystemState.mk0).1.mpr (by decide))).1,
   ((scheduler_timers_C5 (fun a _ => a) ⟨fun _ => 0, .val 20, .val 50, 5⟩ 2500
        SystemState.mk0).2.2.2.2.1
      ((scheduler_timers_C5 (fun a _ => a) ⟨fun _ => 0, .val 20, .val 50, 5⟩
          2500 SystemState.mk0).2.2.2.1.mpr (by decide))).1⟩

/-- C8: on an environmental firing, the snapshot's temperature/humidity are
overwritten iff the DHT reading is valid and the light level iff the light
reading is valid (invalid readings leave the pre-tick values untouched),
`resetPeak()` is applied to the microphone accumulator, and the report
emitted is the updated snapshot. -/
theorem scheduler_snapshot_C8 :
    ∀ (hix : CFloat → CFloat → CFloat) (inp : LoopInputs) (now : ℕ)
      (st : SystemState),
      (loopStep hix inp now st).envFired = true →
      ((st.dht.read hix inp.dhtTemp inp.dhtHumidity).1.isValid = false →
        (loopStep hix inp now st).state.sensorData.temperature =
          st.sensorData.temperature ∧
        (loopStep hix inp now st).state.sensorData.humidity =
          st.sensorData.humidity) ∧
      ((st.light.read inp.lightLux).1.isValid = false →
        (loopStep hix inp now st).state.sensorData.lightLevel =
          st.sensorData.lightLevel) ∧
      ((st.dht.read hix inp.dhtTemp inp.dhtHumidity).1.isValid = true →
        (loopStep hix inp now st).state.sensorData.temperature =
          (st.dht.read hix inp.dhtTemp inp.dhtHumidity).1.temperature ∧
        (loopStep hix inp now st).state.sensorData.humidity =
          (st.dht.read hix inp.dhtTemp inp.dhtHumidity).1.humidity) ∧
      ((st.light.read inp.lightLux).1.isValid = true →
        (loopStep hix inp now st).state.sensorData.lightLevel =
          (st.light.read inp.lightLux).1.lux) ∧
      (loopStep hix inp now st).state.mic =
        (if (loopStep hix inp now st).audioFired = true
         then (st.mic.read inp.micDev).2
         else st.mic).resetPeak ∧
      (loopStep hix inp now st).report =
        some (loopStep hix inp now st).state.sensorData := by
  intro hix inp now st henv
  obtain ⟨hA, hE, hS, hR⟩ := loopStep_eq hix inp now st
  by_cases ha : AUDIO_SAMPLE_INTERVAL ≤ usub now st.lastAudioSample
  · obtain ⟨a1, a2, a3, a4, a5, a6, a7, a8, a9⟩ := loopAudio_pos inp now st ha
    by_cases he : SENSOR_READ_INTERVAL ≤ usub now st.lastSensorRead
    · have he' : SENSOR_READ_INTERVAL ≤
          usub now (loopAudio inp now st).1.lastSensorRead := by
        rw [a3]; exact he
      obtain ⟨e1, e2, e3, e4, e5, e6, e7, e8, e9⟩ :=
        loopEnv_pos hix inp now _ he'
      rw [a4] at e6 e7
      rw [a5] at e8 e9
      rw [a7, a8] at e6
      rw [a9] at e8
      refine ⟨?_, ?_, ?_, ?_, ?_, ?_⟩
      · intro hd; rw [hS]; exact e6 hd
      · intro hl; rw [hS]; exact e8 hl
      · intro hd; rw [hS]; exact e7 hd
      · intro hl; rw [hS]; exact e9 hl
      · rw [hS, e4, a6, hA, a1]; simp
      · rw [hR, hS]; exact e5
    · have he' : ¬SENSOR_READ_INTERVAL ≤
          usub now (loopAudio inp now st).1.lastSensorRead := by
        rw [a3]; exact he
      obtain ⟨e1, e2, e3⟩ := loopEnv_neg hix inp now _ he'
      rw [hE, e1] at henv
      simp at henv
  · obtain ⟨a1, a2⟩ := loopAudio_neg inp now st ha
    rw [a2] at hE hS hR
    by_cases he : SENSOR_READ_INTERVAL ≤ usub now st.lastSensorRead
    · obtain ⟨e1, e2, e3, e4, e5, e6, e7, e8, e9⟩ :=
        loopEnv_pos hix inp now st he
      refine ⟨?_, ?_, ?_, ?_, ?_, ?_⟩
      · intro hd; rw [hS]; exact e6 hd
      · intro hl; rw [hS]; exact e8 hl
      · intro hd; rw [hS]; exact e7 hd
      · intro hl; rw [hS]; exact e9 hl
      · rw [hS, e4, hA, a1]; simp
      · rw [hR, hS]; exact e5
    · obtain ⟨e1, e2, e3⟩ := loopEnv_neg hix inp now st he
      rw [hE, e1] at henv
      simp at henv

/-- C8 witness: at tick 2500 from the reset state both readers are
uninitialized, so both readings are invalid and the snapshot keeps its
zeroed temperature and light level. -/
theorem scheduler_snapshot_C8_witness :
    (loopStep (fun a _ => a) ⟨fun _ => 0, .val 20, .val 50, 5⟩ 2500
      SystemState.mk0).state.sensorData.temperature = .val 0 ∧
    (loopStep (fun a _ => a) ⟨fun _ => 0, .val 20, .val 50, 5⟩ 2500
      SystemState.mk0).state.sensorData.lightLevel = 0 :=
  have h := scheduler_snapshot_C8 (fun a _ => a)
    ⟨fun _ => 0, .val 20, .val 50, 5⟩ 2500 SystemState.mk0 (by decide)
  ⟨(h.1 rfl).1, h.2.1 rfl⟩

/-- C1 amended witness: a first successful DHT pair gives one attempt and
`initialized = true`; a successful light device `begin` with lux 7 seeds the
last-good lux. -/
theorem begin_retry_C1_amended_witness :
    (DHTSensor.mk0.begin (.val 20, .val 50) (.nan, .nan)).attempts = 1 ∧
    (DHTSensor.mk0.begin (.val 20, .val 50) (.nan, .nan)).sensor.initialized = true ∧
    (LightSensor.mk0.begin true 7).sensor.lastLux = 7 :=
  ⟨(begin_retry_C1_amended.1 DHTSensor.mk0 (.val 20, .val 50) (.nan, .nan) rfl).1,
   (begin_retry_C1_amended.1 DHTSensor.mk0 (.val 20, .val 50) (.nan, .nan) rfl).2.1,
   (begin_retry_C1_amended.2.2 LightSensor.mk0 true 7).2.2.2.1 rfl (by norm_num)⟩
